import Mathlib

/-!
Verification of the UnrealClaudeFileHelper monitoring core against its
natural-language specification.

The development shallowly embeds the relevant Python code:

* `src/tools/index_stats.py` — the log-phase classifier `_parse_log_status`,
  the snapshot worker `IndexStatsWorker.run` / `_fetch_safe`, the single-flight
  guards `IndexStatsPanel.refresh` / `refresh_startup`, and the project-entry
  extraction `IndexStatsPanel._extract_projects`;
* `src/tools/launcher.py` — the lifecycle reconciliation `LauncherView._on_status`
  and the single-flight guard `LauncherView._refresh`.

Embedding conventions:

* Python strings are Lean `String`s; `str.lower()` is modelled as mapping
  `Char.toLower` over the characters (the log keywords involved are ASCII);
  `str.strip()` is `trimChars`; `splitlines()` is splitting on a newline
  character (other Unicode line separators do not occur in the modelled logs,
  and blank results are filtered out either way); slicing `line[:120]` is
  `pyTake _ 120` (both count code points).
* The regular-expression searches (`re.search`) of `_RE_PROGRESS`,
  `_RE_FILES_INDEXED` and `_RE_INDEXING` are implemented as explicit
  leftmost-position scans.  For these particular patterns greedy matching with
  backtracking is equivalent to the deterministic maximal-munch matchers used
  here, because every quantified class (`\d`, `\s`, `[\w\s]`) is disjoint from
  the literal that must follow it.  `\d`/`\s`/`\w` are modelled over ASCII via
  `Char.isDigit`, `Char.isWhitespace` and `Char.isAlphanum`/underscore.
* JSON values are the inductive `Json`; Python `dict`s are ordered association
  lists and `dict.get` is `List.lookup`.  Python truthiness is `pyTruthy`.
* Calls that Python can only answer with an `AttributeError` (attribute access
  on a non-`dict` JSON value) are modelled with `Except Unit`.
* Exceptions from `urllib`/`json` inside a fetch are modelled by the fetch
  outcome type `Except Unit Json` supplied by the environment.
-/

set_option maxRecDepth 16384

namespace UnrealIndex

/-! ## JSON values (results of `json.loads`) -/

inductive Json where
  | null
  | bool (b : Bool)
  | num (n : Int)
  | str (s : String)
  | arr (elems : List Json)
  | obj (fields : List (String × Json))

/-- `isinstance(v, dict)` -/
def Json.isObj : Json → Bool
  | .obj _ => true
  | _ => false

/-- Python truthiness of a JSON value (`if v:` / `v and w` / `v or w`). -/
def pyTruthy : Json → Bool
  | .null => false
  | .bool b => b
  | .num n => n != 0
  | .str s => !s.isEmpty
  | .arr xs => !xs.isEmpty
  | .obj fs => !fs.isEmpty

/-! ## Log-phase classifier (`_parse_log_status`, index_stats.py:119-165) -/

inductive Phase where
  | starting
  | indexing
  | ready
  | error
deriving DecidableEq, Repr

/-- The dict returned by `_parse_log_status`: keys `phase`, `detail`, and the
optional `progress` / `total` pair. -/
structure LogStatus where
  phase : Phase
  detail : String
  progress : Option Nat
  total : Option Nat
deriving DecidableEq, Repr

/-- Python slicing `line[:n]` by code points. -/
def pyTake (s : String) (n : Nat) : String := ⟨s.toList.take n⟩

/-- `needle in hay` for character sequences (Python substring test). -/
def containsSeq (needle : List Char) : List Char → Bool
  | [] => needle.isEmpty
  | c :: t => needle.isPrefixOf (c :: t) || containsSeq needle t

/-- `"error" in lower or "fatal" in lower or "enoent" in lower`
(index_stats.py:130). -/
def isErrorLine (line : String) : Bool :=
  let lower := line.toList.map Char.toLower
  containsSeq "error".toList lower || containsSeq "fatal".toList lower ||
    containsSeq "enoent".toList lower

/-- `"listening" in lower or "server started" in lower or "ready" in lower`
(index_stats.py:137). -/
def isReadyLine (line : String) : Bool :=
  let lower := line.toList.map Char.toLower
  containsSeq "listening".toList lower || containsSeq "server started".toList lower ||
    containsSeq "ready".toList lower

/-- Value of a run of decimal digits (`int(...)` on the matched group). -/
def digitsToNatAux (acc : Nat) : List Char → Nat
  | [] => acc
  | c :: cs => digitsToNatAux (acc * 10 + (c.toNat - '0'.toNat)) cs

def digitsToNat (cs : List Char) : Nat := digitsToNatAux 0 cs

/-- Does `_RE_PROGRESS = (\d+)\s*/\s*(\d+)` match starting exactly here?
Returns the two captured integers. -/
def matchProgressAt (cs : List Char) : Option (Nat × Nat) :=
  let d1 := cs.takeWhile Char.isDigit
  if d1.isEmpty then none
  else
    match (cs.dropWhile Char.isDigit).dropWhile Char.isWhitespace with
    | '/' :: r2 =>
      let d2 := (r2.dropWhile Char.isWhitespace).takeWhile Char.isDigit
      if d2.isEmpty then none else some (digitsToNat d1, digitsToNat d2)
    | _ => none

/-- `_RE_PROGRESS.search(line)` (index_stats.py:111,143): leftmost match. -/
def searchProgress : List Char → Option (Nat × Nat)
  | [] => none
  | c :: cs =>
    match matchProgressAt (c :: cs) with
    | some r => some r
    | none => searchProgress cs

/-- Does `_RE_FILES_INDEXED = (\d+)\s+files?\s+indexed` (IGNORECASE) match
starting exactly here?  `cs` is already lowercased. -/
def matchFilesIndexedAt (cs : List Char) : Bool :=
  !(cs.takeWhile Char.isDigit).isEmpty &&
    (let r1 := cs.dropWhile Char.isDigit
     !(r1.takeWhile Char.isWhitespace).isEmpty &&
       (let r2 := r1.dropWhile Char.isWhitespace
        "file".toList.isPrefixOf r2 &&
          (let r3 := r2.drop 4
           let r4 := match r3 with
             | 's' :: t => t
             | _ => r3
           !(r4.takeWhile Char.isWhitespace).isEmpty &&
             "indexed".toList.isPrefixOf (r4.dropWhile Char.isWhitespace))))

/-- `_RE_FILES_INDEXED.search(line)` as a boolean (index_stats.py:112,154). -/
def searchFilesIndexed : List Char → Bool
  | [] => false
  | c :: cs => matchFilesIndexedAt (c :: cs) || searchFilesIndexed cs

/-- `\w` word characters (ASCII model). -/
def isWordChar (c : Char) : Bool := c.isAlphanum || c = '_'

/-- Does `\s+\d` match a prefix here?  (Some positive run of whitespace
followed by a digit; the digit is not whitespace, so the run is maximal.) -/
def spacesThenDigit (cs : List Char) : Bool :=
  !(cs.takeWhile Char.isWhitespace).isEmpty &&
    (match cs.dropWhile Char.isWhitespace with
     | d :: _ => d.isDigit
     | [] => false)

/-- Does the terminator `(?:\.\.\.|:|\s+\d)` of `_RE_INDEXING` match a prefix
here? -/
def gerundTail (cs : List Char) : Bool :=
  match cs with
  | '.' :: '.' :: '.' :: _ => true
  | ':' :: _ => true
  | _ => spacesThenDigit cs

/-- After the leading `\w`: does `[\w\s]*?` followed by the terminator match? -/
def midRest (cs : List Char) : Bool :=
  gerundTail cs ||
    (match cs with
     | c :: cs' => (isWordChar c || c.isWhitespace) && midRest cs'
     | [] => false)

/-- Does `\w[\w\s]*?(?:\.\.\.|:|\s+\d)` match a prefix here? -/
def midSearch (cs : List Char) : Bool :=
  match cs with
  | c :: cs' => isWordChar c && midRest cs'
  | [] => false

/-- After a gerund keyword: does `\s+(\w[\w\s]*?)(?:\.\.\.|:|\s+\d)` match? -/
def afterGerund (cs : List Char) : Bool :=
  !(cs.takeWhile Char.isWhitespace).isEmpty &&
    midSearch (cs.dropWhile Char.isWhitespace)

/-- Does `_RE_INDEXING = (?:indexing|scanning|processing)\s+(\w[\w\s]*?)(?:\.\.\.|:|\s+\d)`
(IGNORECASE) match starting exactly here?  `cs` is already lowercased. -/
def matchGerundAt (cs : List Char) : Bool :=
  ("indexing".toList.isPrefixOf cs && afterGerund (cs.drop 8)) ||
    ("scanning".toList.isPrefixOf cs && afterGerund (cs.drop 8)) ||
    ("processing".toList.isPrefixOf cs && afterGerund (cs.drop 10))

/-- `_RE_INDEXING.search(line)` as a boolean (index_stats.py:113-116,159). -/
def searchGerund : List Char → Bool
  | [] => false
  | c :: cs => matchGerundAt (c :: cs) || searchGerund cs

/-- Body of the progress-tier loop for a single line (index_stats.py:142-162):
the `_RE_PROGRESS` check falls through to the `_RE_FILES_INDEXED` and
`_RE_INDEXING` checks when it does not fire with `total > 0`. -/
def filesOrGerund (line : String) : Option LogStatus :=
  if searchFilesIndexed (line.toList.map Char.toLower) then
    some ⟨.indexing, pyTake line 120, none, none⟩
  else if searchGerund (line.toList.map Char.toLower) then
    some ⟨.indexing, pyTake line 120, none, none⟩
  else none

def progressLine (line : String) : Option LogStatus :=
  match searchProgress line.toList with
  | some (current, total) =>
    if total > 0 then some ⟨.indexing, pyTake line 120, some current, some total⟩
    else filesOrGerund line
  | none => filesOrGerund line

/-- `lines[-10:]` (index_stats.py:125). -/
def last_lines (lines : List String) : List String := lines.drop (lines.length - 10)

/-- The error-tier loop (index_stats.py:128-133): most recent matching line. -/
def errorTier (ll : List String) : Option LogStatus :=
  (ll.reverse.find? isErrorLine).map fun line => ⟨.error, pyTake line 120, none, none⟩

/-- The ready-tier loop (index_stats.py:135-140). -/
def readyTier (ll : List String) : Option LogStatus :=
  (ll.reverse.find? isReadyLine).map fun line => ⟨.ready, pyTake line 120, none, none⟩

/-- The progress-tier loop (index_stats.py:142-162). -/
def progressTier (ll : List String) : Option LogStatus :=
  ll.reverse.findSome? progressLine

/-- The fallback result (index_stats.py:126,164-165). -/
def fallbackStatus (ll : List String) : LogStatus :=
  ⟨.starting,
   (match ll.getLast? with
    | some l => pyTake l 120
    | none => "Starting..."),
   none, none⟩

/-- `_parse_log_status` from the point where the non-empty trimmed lines are
known (index_stats.py:122-165). -/
def parseLines (lines : List String) : LogStatus :=
  if lines.isEmpty then ⟨.starting, "Waiting for output...", none, none⟩
  else
    let ll := last_lines lines
    match errorTier ll with
    | some st => st
    | none =>
      match readyTier ll with
      | some st => st
      | none =>
        match progressTier ll with
        | some st => st
        | none => fallbackStatus ll

/-- Python `str.strip()` over the characters. -/
def trimChars (cs : List Char) : List Char :=
  ((cs.dropWhile Char.isWhitespace).reverse.dropWhile Char.isWhitespace).reverse

/-- Python `str.splitlines()` restricted to `'\n'` separators (a `'\r'` left
behind by a `"\r\n"` pair is whitespace and is removed by the per-line strip;
the exotic Unicode line separators do not occur in the modelled logs). -/
def splitNewlines : List Char → List Char → List (List Char)
  | [], acc => [acc.reverse]
  | c :: cs, acc =>
    if c = '\n' then acc.reverse :: splitNewlines cs []
    else splitNewlines cs (c :: acc)

/-- `[l.strip() for l in log_text.strip().splitlines() if l.strip()]`
(index_stats.py:121). -/
def preprocess (log_text : String) : List String :=
  (((splitNewlines (trimChars log_text.toList) []).map fun cs => String.mk (trimChars cs)).filter
    fun l => !l.toList.isEmpty)

/-- `_parse_log_status(log_text)` (index_stats.py:119-165). -/
def _parse_log_status (log_text : String) : LogStatus :=
  parseLines (preprocess log_text)

/-! ## Snapshot worker (`IndexStatsWorker`, index_stats.py:23-56)

A poll cycle is determined by the outcomes of the four endpoint fetches.
`_fetch` either returns a JSON value or raises (connection error, timeout,
non-2xx, malformed body); an outcome is therefore an `Except Unit Json`
supplied by the environment. -/

structure FetchEnv where
  health : Except Unit Json
  stats : Except Unit Json
  status : Except Unit Json
  summary : Except Unit Json

/-- `_fetch_safe` (index_stats.py:52-56): swallow any error into `None`. -/
def _fetch_safe (r : Except Unit Json) : Option Json :=
  match r with
  | .ok v => some v
  | .error _ => none

/-- The dict emitted through `result_ready` (index_stats.py:38-43).  Field
values are Python values, so `none` is Python `None`. -/
structure RunPayload where
  health : Json
  stats : Option Json
  status : Option Json
  summary : Option Json

/-- What one `run` invocation emits: exactly one of the two signals. -/
inductive Emission where
  | result_ready (payload : RunPayload)
  | fetch_failed

/-- `stats or {}` (index_stats.py:40): Python `or` of the fetched value and
an empty dict. -/
def pyOrEmptyObj (v : Option Json) : Json :=
  match v with
  | some j => if pyTruthy j then j else Json.obj []
  | none => Json.obj []

/-- `IndexStatsWorker.run` (index_stats.py:32-45).  The mandatory health fetch
comes first; if it raises, the whole `try` block is abandoned and
`fetch_failed` is emitted.  The three best-effort fetches go through
`_fetch_safe` and can never raise. -/
def IndexStatsWorker.run (env : FetchEnv) : Emission :=
  match env.health with
  | .error _ => .fetch_failed
  | .ok health =>
    .result_ready
      { health := health
        stats := some (pyOrEmptyObj (_fetch_safe env.stats))
        status := _fetch_safe env.status
        summary := _fetch_safe env.summary }

/-! ## Lifecycle reconciliation (`LauncherView._on_status`, launcher.py:1199-1213) -/

inductive ServiceState where
  | STOPPED
  | STARTING
  | RUNNING
  | STOPPING
deriving DecidableEq, Repr

/-- The stats-panel methods invoked during `_on_status`. -/
inductive PanelCall where
  | refresh
  | refresh_startup
  | set_offline
deriving DecidableEq, Repr

structure OnStatusResult where
  index_state : ServiceState
  watcher_state : ServiceState
  panel_calls : List PanelCall
deriving DecidableEq, Repr

/-- `LauncherView._on_status` (launcher.py:1199-1213), value semantics of the
row-state mutations and the panel calls performed.  Mirrors the source order:
in the `elif` branch, `set_state(ServiceState.STOPPED)` executes before the
`self._index_row.state == ServiceState.STARTING` test, so that test reads the
already-updated state. -/
def LauncherView._on_status (index_state watcher_state : ServiceState)
    (index_running watcher_running : Bool) : OnStatusResult :=
  let (index_state1, calls) :=
    if index_running then
      (ServiceState.RUNNING, [PanelCall.refresh])
    else if index_state ≠ ServiceState.STARTING ∧ index_state ≠ ServiceState.STOPPING then
      let updated := ServiceState.STOPPED
      if updated = ServiceState.STARTING then (updated, [PanelCall.refresh_startup])
      else (updated, [PanelCall.set_offline])
    else
      (index_state, [])
  let watcher_state1 :=
    if watcher_running then ServiceState.RUNNING
    else if watcher_state ≠ ServiceState.STARTING ∧ watcher_state ≠ ServiceState.STOPPING then
      ServiceState.STOPPED
    else watcher_state
  { index_state := index_state1, watcher_state := watcher_state1, panel_calls := calls }

/-! ## Single-flight guards

Each poll kind owns one worker slot: `IndexStatsPanel._worker` for snapshot
polls, `IndexStatsPanel._log_worker` for log/startup polls,
`LauncherView._check_worker` for status checks.  A slot is `none` before any
worker was created, `some b` when a worker object exists with
`isRunning() = b`.  `starts` counts `worker.start()` calls, i.e. network round
trips begun. -/

structure WorkerSlot where
  worker : Option Bool
  starts : Nat
deriving DecidableEq, Repr

/-- `IndexStatsPanel.refresh` (index_stats.py:282-288): drop the tick if
`self._worker and self._worker.isRunning()`, otherwise create and start a new
worker. -/
def IndexStatsPanel.refresh (s : WorkerSlot) : WorkerSlot :=
  match s.worker with
  | some true => s
  | _ => { worker := some true, starts := s.starts + 1 }

/-- `IndexStatsPanel.refresh_startup` (index_stats.py:290-295): same guard on
`self._log_worker`. -/
def IndexStatsPanel.refresh_startup (s : WorkerSlot) : WorkerSlot :=
  match s.worker with
  | some true => s
  | _ => { worker := some true, starts := s.starts + 1 }

/-- `LauncherView._refresh` (launcher.py:1192-1197): same guard on
`self._check_worker`. -/
def LauncherView._refresh (s : WorkerSlot) : WorkerSlot :=
  match s.worker with
  | some true => s
  | _ => { worker := some true, starts := s.starts + 1 }

/-- Environment event: the worker thread finishes (`isRunning()` flips). -/
def workerFinished (s : WorkerSlot) : WorkerSlot :=
  { s with worker := s.worker.map fun _ => false }

/-- Number of polls of this kind currently in flight. -/
def inFlight (s : WorkerSlot) : Nat :=
  match s.worker with
  | some true => 1
  | _ => 0

/-! ## Project-entry extraction (`IndexStatsPanel._extract_projects`,
index_stats.py:482-514) -/

/-- `_LANG_LABELS` (index_stats.py:103-109). -/
def _LANG_LABELS : List (String × String) :=
  [("angelscript", "AS"), ("cpp", "C++"), ("config", "Config"),
   ("asset", "Assets"), ("content", "Content")]

/-- The status-endpoint check (index_stats.py:483-487):
`if status and isinstance(status.get("projects"), list): items = status["projects"];
if items and isinstance(items[0], dict): return items`.
`.ok (some items)` means the status source is used; `.ok none` means fall
through; `.error` models the `AttributeError` from `.get` on a truthy
non-dict. -/
def statusItems? : Option Json → Except Unit (Option (List Json))
  | none => .ok none
  | some st =>
    if pyTruthy st then
      match st with
      | .obj fs =>
        match fs.lookup "projects" with
        | some (.arr items) =>
          match items with
          | first :: _ => if first.isObj then .ok (some items) else .ok none
          | [] => .ok none
        | _ => .ok none
      | _ => .error ()
    else .ok none

/-- The `stats.projects` loop body (index_stats.py:492-501): one entry per
dict-valued project, with defaults and status `"indexed"`. -/
def statsProjectsEntries (pfs : List (String × Json)) : List Json :=
  pfs.filterMap fun nd =>
    match nd.2 with
    | .obj proj =>
      some (.obj [("name", .str nd.1),
                  ("language", (proj.lookup "language").getD (.str "")),
                  ("files", (proj.lookup "files").getD (.num 0)),
                  ("status", .str "indexed")])
    | _ => none

/-- The `stats.byLanguage` fallback loop (index_stats.py:504-514). -/
def byLanguageEntries (bfs : List (String × Json)) : List Json :=
  bfs.filterMap fun ld =>
    match ld.2 with
    | .obj lfs =>
      some (.obj [("name", .str ((_LANG_LABELS.lookup ld.1).getD ld.1)),
                  ("language", .str ld.1),
                  ("files", (lfs.lookup "files").getD (.num 0)),
                  ("status", .str "indexed")])
    | _ => none

/-- `by_lang = stats.get("byLanguage", {})` followed by `by_lang.items()`
(index_stats.py:505-506); `.items()` on a non-dict raises. -/
def byLanguageBranch (sfs : List (String × Json)) : Except Unit (List Json) :=
  match (sfs.lookup "byLanguage").getD (.obj []) with
  | .obj bfs => .ok (byLanguageEntries bfs)
  | _ => .error ()

/-- The part of `_extract_projects` after the status check
(index_stats.py:489-514): `stats_projects = stats.get("projects", {})`, used
when it is a non-empty dict, else the byLanguage fallback.  `stats.get` on a
non-dict raises. -/
def extract_from_stats (stats : Json) : Except Unit (List Json) :=
  match stats with
  | .obj sfs =>
    match (sfs.lookup "projects").getD (.obj []) with
    | .obj pfs =>
      if pfs.isEmpty then byLanguageBranch sfs
      else .ok (statsProjectsEntries pfs)
    | _ => byLanguageBranch sfs
  | _ => .error ()

/-- `IndexStatsPanel._extract_projects` (index_stats.py:482-514).  The
`summary` argument is accepted but never read by the source. -/
def IndexStatsPanel._extract_projects (status summary : Option Json) (stats : Json) :
    Except Unit (List Json) :=
  match statusItems? status with
  | .error e => .error e
  | .ok (some items) => .ok items
  | .ok none => extract_from_stats stats

/-! ## Shared helper lemmas -/

theorem findSome?_append_of_forall_none {α β : Type} (f : α → Option β) (l₁ l₂ : List α)
    (h : ∀ x ∈ l₁, f x = none) : (l₁ ++ l₂).findSome? f = l₂.findSome? f := by
  induction l₁ with
  | nil => simp
  | cons a t ih =>
    have ha : f a = none := h a (by simp)
    rw [List.cons_append, List.findSome?_cons, ha]
    exact ih fun x hx => h x (by simp [hx])

theorem getLast?_drop_of_lt {α : Type} (xs : List α) (k : Nat) (h : k < xs.length) :
    (xs.drop k).getLast? = xs.getLast? := by
  induction xs generalizing k with
  | nil => simp at h
  | cons x xs ih =>
    cases k with
    | zero => rfl
    | succ k =>
      have hk : k < xs.length := by simpa using h
      rw [List.drop_succ_cons, ih k hk]
      cases xs with
      | nil => simp at hk
      | cons y ys => rw [List.getLast?_cons_cons]

theorem last_lines_of_le (lines : List String) (h : lines.length ≤ 10) :
    last_lines lines = lines := by
  unfold last_lines
  rw [Nat.sub_eq_zero_of_le h, List.drop_zero]

theorem byLanguageBranch_ok (sfs : List (String × Json)) (result : List Json)
    (h : byLanguageBranch sfs = .ok result) :
    ∃ bfs, (sfs.lookup "byLanguage").getD (.obj []) = .obj bfs ∧
      result = byLanguageEntries bfs := by
  unfold byLanguageBranch at h
  cases hb : (sfs.lookup "byLanguage").getD (.obj []) with
  | obj bfs =>
    rw [hb] at h
    simp only [Except.ok.injEq] at h
    exact ⟨bfs, rfl, h.symm⟩
  | null => rw [hb] at h; dsimp only at h; exact absurd h (by simp)
  | bool b => rw [hb] at h; dsimp only at h; exact absurd h (by simp)
  | num n => rw [hb] at h; dsimp only at h; exact absurd h (by simp)
  | str s => rw [hb] at h; dsimp only at h; exact absurd h (by simp)
  | arr xs => rw [hb] at h; dsimp only at h; exact absurd h (by simp)

/-! ## Claim theorems -/

/-- C2: whenever the mandatory health fetch fails, `run` emits `fetch_failed`
and never a `result_ready` snapshot, whatever the other endpoints would have
returned; the failure is absorbed (the embedding is a total function into
`Emission`), never surfaced as an exception. -/
theorem c2_health_failure_degrades (env : FetchEnv) (h : env.health = .error ()) :
    IndexStatsWorker.run env = Emission.fetch_failed ∧
    ∀ p, IndexStatsWorker.run env ≠ Emission.result_ready p := by
  have hr : IndexStatsWorker.run env = Emission.fetch_failed := by
    unfold IndexStatsWorker.run
    rw [h]
  refine ⟨hr, fun p hp => ?_⟩
  rw [hr] at hp
  exact Emission.noConfusion hp

/-- Witness for C2: health fails while all best-effort endpoints would have
succeeded; the cycle still degrades to `fetch_failed`. -/
theorem c2_witness :
    IndexStatsWorker.run ⟨.error (), .ok (Json.obj []), .ok Json.null, .ok (Json.num 3)⟩ =
      Emission.fetch_failed ∧
    ∀ p, IndexStatsWorker.run ⟨.error (), .ok (Json.obj []), .ok Json.null, .ok (Json.num 3)⟩ ≠
      Emission.result_ready p :=
  c2_health_failure_degrades ⟨.error (), .ok (Json.obj []), .ok Json.null, .ok (Json.num 3)⟩ rfl

/-- C3 counterexample: health succeeds and the stats fetch fails, yet the
emitted payload's `stats` field is the empty object `{}` (from `stats or {}`),
not `None` as the claim states. -/
theorem c3_counterexample :
    IndexStatsWorker.run ⟨.ok (Json.obj []), .error (), .ok (Json.num 1), .ok (Json.num 2)⟩ =
      Emission.result_ready ⟨Json.obj [], some (Json.obj []), some (Json.num 1), some (Json.num 2)⟩ ∧
    some (Json.obj []) ≠ (none : Option Json) :=
  ⟨rfl, fun hp => Option.noConfusion hp⟩

/-- C3 as amended: when health succeeds, a snapshot is always produced; a
failed `status` or `summary` fetch yields `None` for that field, while a
failed `stats` fetch yields the empty object `{}` (the worker substitutes
`stats or {}`); no best-effort failure aborts the snapshot. -/
theorem c3_best_effort_fields (env : FetchEnv) (health : Json)
    (h : env.health = .ok health) :
    ∃ p, IndexStatsWorker.run env = Emission.result_ready p ∧
      (env.stats = .error () → p.stats = some (Json.obj [])) ∧
      (env.status = .error () → p.status = none) ∧
      (env.summary = .error () → p.summary = none) := by
  refine ⟨{ health := health, stats := some (pyOrEmptyObj (_fetch_safe env.stats)),
            status := _fetch_safe env.status, summary := _fetch_safe env.summary },
          ?_, ?_, ?_, ?_⟩
  · unfold IndexStatsWorker.run
    rw [h]
  · intro hf; rw [hf]; rfl
  · intro hf; rw [hf]; rfl
  · intro hf; rw [hf]; rfl

/-- Witness for C3 (amended): all three best-effort fetches fail; the snapshot
is still emitted with `stats = {}` and `status = summary = None`. -/
theorem c3_witness :
    ∃ p, IndexStatsWorker.run ⟨.ok Json.null, .error (), .error (), .error ()⟩ =
        Emission.result_ready p ∧
      p.stats = some (Json.obj []) ∧ p.status = none ∧ p.summary = none := by
  obtain ⟨p, hp, h1, h2, h3⟩ :=
    c3_best_effort_fields ⟨.ok Json.null, .error (), .error (), .error ()⟩ Json.null rfl
  exact ⟨p, hp, h1 rfl, h2 rfl, h3 rfl⟩

/-- C4 counterexample: a poll result with `index_running = true` received while
the index row is `STOPPING` moves the state to `RUNNING` — it is not ignored,
and `RUNNING ≠ STOPPING`. -/
theorem c4_counterexample :
    (LauncherView._on_status ServiceState.STOPPING ServiceState.STOPPED true false).index_state =
      ServiceState.RUNNING ∧
    ServiceState.RUNNING ≠ ServiceState.STOPPING := by decide

/-- C4 as amended: a poll result with `reachable = true` sets the index-service
state to `RUNNING` from every state, including `STOPPING` (the `if
index_running` branch carries no state guard). -/
theorem c4_reachable_always_running (index_state watcher_state : ServiceState)
    (watcher_running : Bool) :
    (LauncherView._on_status index_state watcher_state true watcher_running).index_state =
      ServiceState.RUNNING := rfl

/-- C5: with the index row in `STARTING` and a poll result `reachable = false`,
the state stays `STARTING` but no panel call at all is made; indeed
`refresh_startup` is unreachable from `_on_status` for every input (the `elif`
guard excludes `STARTING`, and the inner `state == STARTING` test runs after
`set_state(STOPPED)`), so the log-based fallback promised by the spec is never
triggered from this path. -/
theorem c5_starting_fallback_never_fires :
    LauncherView._on_status ServiceState.STARTING ServiceState.STOPPED false false =
      { index_state := ServiceState.STARTING, watcher_state := ServiceState.STOPPED,
        panel_calls := [] } ∧
    ∀ (istate wstate : ServiceState) (ir wr : Bool),
      PanelCall.refresh_startup ∉ (LauncherView._on_status istate wstate ir wr).panel_calls := by
  refine ⟨by decide, ?_⟩
  intro istate wstate ir wr
  cases istate <;> cases wstate <;> cases ir <;> cases wr <;> decide

/-- C6: for each of the three poll kinds — snapshot poll
(`IndexStatsPanel.refresh`), log/startup poll (`IndexStatsPanel.refresh_startup`),
status check (`LauncherView._refresh`) — a tick while a worker of that kind is
running is dropped (the slot is unchanged, no new start), at most one worker is
ever in flight, and two ticks from an idle slot begin exactly one round trip. -/
theorem c6_single_flight (s : WorkerSlot) :
    (s.worker = some true →
      IndexStatsPanel.refresh s = s ∧ IndexStatsPanel.refresh_startup s = s ∧
        LauncherView._refresh s = s) ∧
    (inFlight (IndexStatsPanel.refresh s) ≤ 1 ∧
      inFlight (IndexStatsPanel.refresh_startup s) ≤ 1 ∧
      inFlight (LauncherView._refresh s) ≤ 1) ∧
    (s.worker ≠ some true →
      (IndexStatsPanel.refresh (IndexStatsPanel.refresh s)).starts = s.starts + 1 ∧
      (IndexStatsPanel.refresh_startup (IndexStatsPanel.refresh_startup s)).starts = s.starts + 1 ∧
      (LauncherView._refresh (LauncherView._refresh s)).starts = s.starts + 1) := by
  obtain ⟨w, st⟩ := s
  rcases w with _ | b
  · refine ⟨by intro h; exact Option.noConfusion h, ?_, ?_⟩
    · exact ⟨by simp [IndexStatsPanel.refresh, inFlight],
        by simp [IndexStatsPanel.refresh_startup, inFlight],
        by simp [LauncherView._refresh, inFlight]⟩
    · intro _
      exact ⟨rfl, rfl, rfl⟩
  · cases b
    · refine ⟨by intro h; simp at h, ?_, ?_⟩
      · exact ⟨by simp [IndexStatsPanel.refresh, inFlight],
          by simp [IndexStatsPanel.refresh_startup, inFlight],
          by simp [LauncherView._refresh, inFlight]⟩
      · intro _
        exact ⟨rfl, rfl, rfl⟩
    · refine ⟨fun _ => ⟨rfl, rfl, rfl⟩, ?_, ?_⟩
      · exact ⟨by simp [IndexStatsPanel.refresh, inFlight],
          by simp [IndexStatsPanel.refresh_startup, inFlight],
          by simp [LauncherView._refresh, inFlight]⟩
      · intro h
        exact absurd rfl h

/-- Witness for C6: a tick on a busy slot is a no-op; two ticks on a fresh idle
slot start exactly one poll. -/
theorem c6_witness :
    IndexStatsPanel.refresh ⟨some true, 3⟩ = ⟨some true, 3⟩ ∧
    (IndexStatsPanel.refresh (IndexStatsPanel.refresh ⟨none, 0⟩)).starts = 0 + 1 :=
  ⟨((c6_single_flight ⟨some true, 3⟩).1 rfl).1,
   ((c6_single_flight ⟨none, 0⟩).2.2 (fun h => Option.noConfusion h)).1⟩

/-- C1: on any classifier input (the contract caps it at the last 10 non-empty
trimmed lines) containing a line with `error`/`fatal`/`enoent`
(case-insensitively), the classifier reports phase `error` with detail equal to
such a line truncated to 120 characters, and never reports `ready`, regardless
of any `ready`/`listening`/`server started` lines before or after it. -/
theorem c1_error_tier_wins (lines : List String) (h10 : lines.length ≤ 10)
    (hex : ∃ l ∈ lines, isErrorLine l = true) :
    (parseLines lines).phase = Phase.error ∧
    (∃ l ∈ lines, isErrorLine l = true ∧ (parseLines lines).detail = pyTake l 120) ∧
    (parseLines lines).phase ≠ Phase.ready := by
  obtain ⟨l0, hl0, he0⟩ := hex
  have hne : lines.isEmpty = false := by
    cases lines
    · simp at hl0
    · rfl
  have hsome : (lines.reverse.find? isErrorLine).isSome := by
    rw [List.find?_isSome]
    exact ⟨l0, List.mem_reverse.mpr hl0, he0⟩
  obtain ⟨l, hfind⟩ := Option.isSome_iff_exists.mp hsome
  have hmem : l ∈ lines := List.mem_reverse.mp (List.mem_of_find?_eq_some hfind)
  have herr : isErrorLine l = true := List.find?_some hfind
  have hparse : parseLines lines = ⟨Phase.error, pyTake l 120, none, none⟩ := by
    simp only [parseLines, hne, Bool.false_eq_true, if_false, last_lines_of_le lines h10,
      errorTier, hfind, Option.map_some']
  rw [hparse]
  exact ⟨rfl, ⟨l, hmem, herr, rfl⟩, fun hp => Phase.noConfusion hp⟩

/-- Witness for C1: an error line followed by a later ready-looking line still
classifies as `error`. -/
theorem c1_witness :
    (["ERROR: boom", "Listening on 3847"].length ≤ 10) ∧
    (parseLines ["ERROR: boom", "Listening on 3847"]).phase = Phase.error ∧
    (∃ l ∈ ["ERROR: boom", "Listening on 3847"], isErrorLine l = true ∧
      (parseLines ["ERROR: boom", "Listening on 3847"]).detail = pyTake l 120) ∧
    (parseLines ["ERROR: boom", "Listening on 3847"]).phase ≠ Phase.ready :=
  ⟨by decide,
   c1_error_tier_wins ["ERROR: boom", "Listening on 3847"] (by decide)
     ⟨"ERROR: boom", by decide, by decide⟩⟩

/-- C7 counterexample: the sample `["1/2 ok", "indexing Assets..."]` contains a
line whose leftmost `current/total` match is `(1, 2)` with `total > 0` and no
error- or ready-tier line, yet the classifier returns `indexing` with no
progress pair and with the more recent gerund line as detail — not
`progress = (1, 2)` and not the `/`-line as detail. -/
theorem c7_counterexample :
    searchProgress "1/2 ok".toList = some (1, 2) ∧
    (∀ l ∈ ["1/2 ok", "indexing Assets..."], isErrorLine l = false ∧ isReadyLine l = false) ∧
    parseLines ["1/2 ok", "indexing Assets..."] =
      ⟨Phase.indexing, "indexing Assets...", none, none⟩ := by
  refine ⟨by decide, by decide, by decide⟩

/-- C7 as amended: with no error- or ready-tier lines, if the most recent line
matched by the progress tier is one whose leftmost `current/total` search gives
`total > 0` (no more recent line fires any progress-tier pattern), the
classifier returns `indexing` with exactly that progress pair and that line as
detail; and a line whose leftmost `current/total` match has `total = 0` never
contributes a progress pair on its own (any progress-tier result it yields has
no pair). -/
theorem c7_progress_extraction :
    (∀ (ys zs : List String) (L : String) (current total : Nat),
      (ys ++ L :: zs).length ≤ 10 →
      (∀ l ∈ ys ++ L :: zs, isErrorLine l = false ∧ isReadyLine l = false) →
      searchProgress L.toList = some (current, total) →
      0 < total →
      (∀ l ∈ zs, progressLine l = none) →
      parseLines (ys ++ L :: zs) = ⟨Phase.indexing, pyTake L 120, some current, some total⟩) ∧
    (∀ (line : String) (current : Nat) (st : LogStatus),
      searchProgress line.toList = some (current, 0) →
      progressLine line = some st →
      st.progress = none) := by
  constructor
  · intro ys zs L current total h10 hnoer hsearch htot hz
    have hne : (ys ++ L :: zs).isEmpty = false := by
      cases ys <;> rfl
    have herr : ((ys ++ L :: zs).reverse.find? isErrorLine) = none := by
      rw [List.find?_eq_none]
      intro x hx
      simp [(hnoer x (List.mem_reverse.mp hx)).1]
    have hready : ((ys ++ L :: zs).reverse.find? isReadyLine) = none := by
      rw [List.find?_eq_none]
      intro x hx
      simp [(hnoer x (List.mem_reverse.mp hx)).2]
    have hrev : (ys ++ L :: zs).reverse = zs.reverse ++ L :: ys.reverse := by
      simp
    have hL : progressLine L = some ⟨Phase.indexing, pyTake L 120, some current, some total⟩ := by
      unfold progressLine
      rw [hsearch]
      simp [htot]
    have hprog : progressTier (ys ++ L :: zs) =
        some ⟨Phase.indexing, pyTake L 120, some current, some total⟩ := by
      unfold progressTier
      rw [hrev, findSome?_append_of_forall_none progressLine zs.reverse _
            (fun x hx => hz x (List.mem_reverse.mp hx)),
          List.findSome?_cons, hL]
    unfold parseLines
    rw [hne]
    simp only [Bool.false_eq_true, if_false]
    rw [last_lines_of_le _ h10]
    unfold errorTier readyTier
    rw [herr, hready, hprog]
    rfl
  · intro line current st hsearch hst
    unfold progressLine at hst
    rw [hsearch] at hst
    simp only [Nat.lt_irrefl, if_false] at hst
    unfold filesOrGerund at hst
    split at hst
    · injection hst with h
      rw [← h]
    · split at hst
      · injection hst with h
        rw [← h]
      · exact Option.noConfusion hst

/-- Witness for C7 (amended): a lone `3/12` progress line classifies as
`indexing` with progress `(3, 12)`; a progress-tier hit on a line whose
`current/total` match is `0/0` (here via "files indexed") has no pair. -/
theorem c7_witness :
    parseLines ["3/12 files"] = ⟨Phase.indexing, pyTake "3/12 files" 120, some 3, some 12⟩ ∧
    (⟨Phase.indexing, pyTake "0/0 files indexed" 120, none, none⟩ : LogStatus).progress = none :=
  ⟨c7_progress_extraction.1 [] [] "3/12 files" 3 12 (by decide) (by decide) (by decide)
      (by decide) (by intro l hl; exact absurd hl (List.not_mem_nil l)),
   c7_progress_extraction.2 "0/0 files indexed" 0
      ⟨Phase.indexing, pyTake "0/0 files indexed" 120, none, none⟩ (by decide) (by decide)⟩

/-- C8: the classifier is total — on every log text it yields one of the four
phases; with no non-empty lines it yields `starting` with the generic
"Waiting for output..." detail; and when lines exist but no tier fires on the
examined (last-10) window it yields `starting` with the most recent line
(truncated to the global 120-character detail bound) as detail. -/
theorem c8_total_with_fallbacks (log_text : String) :
    ((_parse_log_status log_text).phase = Phase.starting ∨
      (_parse_log_status log_text).phase = Phase.indexing ∨
      (_parse_log_status log_text).phase = Phase.ready ∨
      (_parse_log_status log_text).phase = Phase.error) ∧
    (preprocess log_text = [] →
      _parse_log_status log_text = ⟨Phase.starting, "Waiting for output...", none, none⟩) ∧
    (∀ L, (preprocess log_text).getLast? = some L →
      (∀ l ∈ last_lines (preprocess log_text),
        isErrorLine l = false ∧ isReadyLine l = false ∧ progressLine l = none) →
      _parse_log_status log_text = ⟨Phase.starting, pyTake L 120, none, none⟩) := by
  refine ⟨?_, ?_, ?_⟩
  · rcases h : (_parse_log_status log_text).phase with _ | _ | _ | _
    · exact Or.inl rfl
    · exact Or.inr (Or.inl rfl)
    · exact Or.inr (Or.inr (Or.inl rfl))
    · exact Or.inr (Or.inr (Or.inr rfl))
  · intro h
    unfold _parse_log_status
    rw [h]
    rfl
  · intro L hL hno
    have hne : (preprocess log_text).isEmpty = false := by
      cases hcase : preprocess log_text
      · rw [hcase] at hL
        exact Option.noConfusion hL
      · rfl
    have herr : ((last_lines (preprocess log_text)).reverse.find? isErrorLine) = none := by
      rw [List.find?_eq_none]
      intro x hx
      simp [(hno x (List.mem_reverse.mp hx)).1]
    have hready : ((last_lines (preprocess log_text)).reverse.find? isReadyLine) = none := by
      rw [List.find?_eq_none]
      intro x hx
      simp [(hno x (List.mem_reverse.mp hx)).2.1]
    have hprog : progressTier (last_lines (preprocess log_text)) = none := by
      unfold progressTier
      rw [List.findSome?_eq_none_iff]
      intro x hx
      exact (hno x (List.mem_reverse.mp hx)).2.2
    have hlen : 0 < (preprocess log_text).length := by
      cases hcase : preprocess log_text
      · rw [hcase] at hL
        exact Option.noConfusion hL
      · simp [hcase]
    have hlast : (last_lines (preprocess log_text)).getLast? = some L := by
      unfold last_lines
      rw [getLast?_drop_of_lt _ _ (Nat.sub_lt hlen (by norm_num))]
      exact hL
    unfold _parse_log_status parseLines
    rw [hne]
    simp only [Bool.false_eq_true, if_false]
    unfold errorTier readyTier
    rw [herr, hready, hprog]
    unfold fallbackStatus
    rw [hlast]
    rfl

/-- Witness for C8: the empty log yields the generic waiting marker; a
keyword-free log yields `starting` with its single line as detail. -/
theorem c8_witness :
    _parse_log_status "" = ⟨Phase.starting, "Waiting for output...", none, none⟩ ∧
    _parse_log_status "hello world" = ⟨Phase.starting, pyTake "hello world" 120, none, none⟩ :=
  ⟨(c8_total_with_fallbacks "").2.1 (by decide),
   (c8_total_with_fallbacks "hello world").2.2 "hello world" (by decide) (by decide)⟩

/-- C9: on any successful extraction, the project-entry list is taken from
exactly one source, chosen in the fixed priority order `status.projects`, then
`stats.projects`, then `stats.byLanguage` — whichever is present first — and
entries from different sources are never merged into one list. -/
theorem c9_single_source (status summary : Option Json) (stats : Json) (result : List Json)
    (h : IndexStatsPanel._extract_projects status summary stats = .ok result) :
    (∃ items, statusItems? status = .ok (some items) ∧ result = items) ∨
    (statusItems? status = .ok none ∧
      ∃ sfs pfs, stats = Json.obj sfs ∧
        (sfs.lookup "projects").getD (.obj []) = .obj pfs ∧ pfs ≠ [] ∧
        result = statsProjectsEntries pfs) ∨
    (statusItems? status = .ok none ∧
      ∃ sfs bfs, stats = Json.obj sfs ∧
        (∀ pfs, (sfs.lookup "projects").getD (.obj []) = .obj pfs → pfs = []) ∧
        (sfs.lookup "byLanguage").getD (.obj []) = .obj bfs ∧
        result = byLanguageEntries bfs) := by
  unfold IndexStatsPanel._extract_projects at h
  cases hst : statusItems? status with
  | error e =>
    rw [hst] at h
    exact absurd h (by simp)
  | ok o =>
    rw [hst] at h
    cases o with
    | some items =>
      simp only [Except.ok.injEq] at h
      exact Or.inl ⟨items, rfl, h.symm⟩
    | none =>
      dsimp only at h
      cases stats with
      | obj sfs =>
        unfold extract_from_stats at h
        dsimp only at h
        cases hg : (sfs.lookup "projects").getD (.obj []) with
        | obj pfs =>
          rw [hg] at h
          dsimp only at h
          cases hpe : pfs.isEmpty with
          | true =>
            rw [hpe] at h
            simp only [if_true] at h
            unfold byLanguageBranch at h
            cases hb : (sfs.lookup "byLanguage").getD (.obj []) with
            | obj bfs =>
              rw [hb] at h
              simp only [Except.ok.injEq] at h
              refine Or.inr (Or.inr ⟨rfl, sfs, bfs, rfl, ?_, hb, h.symm⟩)
              intro pfs' hpf
              rw [hg] at hpf
              injection hpf with h2
              rw [← h2]
              exact List.isEmpty_iff.mp hpe
            | null => rw [hb] at h; dsimp only at h; exact absurd h (by simp)
            | bool b => rw [hb] at h; dsimp only at h; exact absurd h (by simp)
            | num n => rw [hb] at h; dsimp only at h; exact absurd h (by simp)
            | str s => rw [hb] at h; dsimp only at h; exact absurd h (by simp)
            | arr xs => rw [hb] at h; dsimp only at h; exact absurd h (by simp)
          | false =>
            rw [hpe] at h
            simp only [Bool.false_eq_true, if_false, Except.ok.injEq] at h
            exact Or.inr (Or.inl ⟨rfl, sfs, pfs, rfl, hg,
              fun hnil => by rw [hnil] at hpe; exact Bool.noConfusion hpe, h.symm⟩)
        | null =>
          rw [hg] at h
          dsimp only at h
          obtain ⟨bfs, hb, hr⟩ := byLanguageBranch_ok sfs result h
          exact Or.inr (Or.inr ⟨rfl, sfs, bfs, rfl,
            fun pfs' hpf => absurd (hg ▸ hpf) (by simp), hb, hr⟩)
        | bool b =>
          rw [hg] at h
          dsimp only at h
          obtain ⟨bfs, hb, hr⟩ := byLanguageBranch_ok sfs result h
          exact Or.inr (Or.inr ⟨rfl, sfs, bfs, rfl,
            fun pfs' hpf => absurd (hg ▸ hpf) (by simp), hb, hr⟩)
        | num n =>
          rw [hg] at h
          dsimp only at h
          obtain ⟨bfs, hb, hr⟩ := byLanguageBranch_ok sfs result h
          exact Or.inr (Or.inr ⟨rfl, sfs, bfs, rfl,
            fun pfs' hpf => absurd (hg ▸ hpf) (by simp), hb, hr⟩)
        | str s =>
          rw [hg] at h
          dsimp only at h
          obtain ⟨bfs, hb, hr⟩ := byLanguageBranch_ok sfs result h
          exact Or.inr (Or.inr ⟨rfl, sfs, bfs, rfl,
            fun pfs' hpf => absurd (hg ▸ hpf) (by simp), hb, hr⟩)
        | arr xs =>
          rw [hg] at h
          dsimp only at h
          obtain ⟨bfs, hb, hr⟩ := byLanguageBranch_ok sfs result h
          exact Or.inr (Or.inr ⟨rfl, sfs, bfs, rfl,
            fun pfs' hpf => absurd (hg ▸ hpf) (by simp), hb, hr⟩)
      | null => exact absurd h (by simp [extract_from_stats])
      | bool b => exact absurd h (by simp [extract_from_stats])
      | num n => exact absurd h (by simp [extract_from_stats])
      | str s => exact absurd h (by simp [extract_from_stats])
      | arr xs => exact absurd h (by simp [extract_from_stats])

/-- Witness for C9: a present `status.projects` list is chosen even though
`stats` also offers `projects` and `byLanguage` data. -/
theorem c9_witness :
    (∃ items,
        statusItems? (some (Json.obj [("projects", Json.arr [Json.obj [("name", Json.str "Engine")]])])) =
          .ok (some items) ∧
        [Json.obj [("name", Json.str "Engine")]] = items) ∨
    (statusItems? (some (Json.obj [("projects", Json.arr [Json.obj [("name", Json.str "Engine")]])])) =
        .ok none ∧
      ∃ sfs pfs,
        (Json.obj [("projects", Json.obj [("Core", Json.obj [])]),
                   ("byLanguage", Json.obj [("cpp", Json.obj [])])]) = Json.obj sfs ∧
        (sfs.lookup "projects").getD (.obj []) = .obj pfs ∧ pfs ≠ [] ∧
        [Json.obj [("name", Json.str "Engine")]] = statsProjectsEntries pfs) ∨
    (statusItems? (some (Json.obj [("projects", Json.arr [Json.obj [("name", Json.str "Engine")]])])) =
        .ok none ∧
      ∃ sfs bfs,
        (Json.obj [("projects", Json.obj [("Core", Json.obj [])]),
                   ("byLanguage", Json.obj [("cpp", Json.obj [])])]) = Json.obj sfs ∧
        (∀ pfs, (sfs.lookup "projects").getD (.obj []) = .obj pfs → pfs = []) ∧
        (sfs.lookup "byLanguage").getD (.obj []) = .obj bfs ∧
        [Json.obj [("name", Json.str "Engine")]] = byLanguageEntries bfs) :=
  c9_single_source
    (some (Json.obj [("projects", Json.arr [Json.obj [("name", Json.str "Engine")]])]))
    none
    (Json.obj [("projects", Json.obj [("Core", Json.obj [])]),
               ("byLanguage", Json.obj [("cpp", Json.obj [])])])
    [Json.obj [("name", Json.str "Engine")]]
    rfl

/-- C10: with `status` a truthy dict whose `projects` value is a list, the list
counts as present only when it is non-empty and its first element is a dict;
an empty list or a non-dict first element falls through to the stats-side
extraction (`stats.projects`, then `stats.byLanguage`); when present, the
status list is returned verbatim, with no name/language/files/status filling. -/
theorem c10_status_presence (fs : List (String × Json)) (items : List Json)
    (summary : Option Json) (stats : Json)
    (hfs : fs ≠ []) (hproj : fs.lookup "projects" = some (Json.arr items)) :
    ((items = [] ∨ ∃ x xs, items = x :: xs ∧ x.isObj = false) →
      IndexStatsPanel._extract_projects (some (Json.obj fs)) summary stats =
        extract_from_stats stats) ∧
    (∀ x xs, items = x :: xs → x.isObj = true →
      IndexStatsPanel._extract_projects (some (Json.obj fs)) summary stats = .ok items) := by
  have htruthy : pyTruthy (Json.obj fs) = true := by
    cases fs with
    | nil => exact absurd rfl hfs
    | cons a l => rfl
  constructor
  · rintro (rfl | ⟨x, xs, rfl, hx⟩)
    · have hst : statusItems? (some (Json.obj fs)) = .ok none := by
        simp [statusItems?, htruthy, hproj]
      unfold IndexStatsPanel._extract_projects
      rw [hst]
    · have hst : statusItems? (some (Json.obj fs)) = .ok none := by
        simp [statusItems?, htruthy, hproj, hx]
      unfold IndexStatsPanel._extract_projects
      rw [hst]
  · rintro x xs rfl hx
    have hst : statusItems? (some (Json.obj fs)) = .ok (some (x :: xs)) := by
      simp [statusItems?, htruthy, hproj, hx]
    unfold IndexStatsPanel._extract_projects
    rw [hst]

/-- Witness for C10: an empty `projects` list falls through to the stats-side
extraction; a list whose first element is a dict is returned verbatim. -/
theorem c10_witness :
    IndexStatsPanel._extract_projects (some (Json.obj [("projects", Json.arr [])])) none
        (Json.obj []) =
      extract_from_stats (Json.obj []) ∧
    IndexStatsPanel._extract_projects
        (some (Json.obj [("projects", Json.arr [Json.obj [("name", Json.str "X")]])])) none
        (Json.obj []) =
      .ok [Json.obj [("name", Json.str "X")]] :=
  ⟨(c10_status_presence [("projects", Json.arr [])] [] none (Json.obj [])
      (by simp) rfl).1 (Or.inl rfl),
   (c10_status_presence [("projects", Json.arr [Json.obj [("name", Json.str "X")]])]
      [Json.obj [("name", Json.str "X")]] none (Json.obj []) (by simp) rfl).2
      (Json.obj [("name", Json.str "X")]) [] rfl rfl⟩

end UnrealIndex
